import Mathlib

/-!
Verification development for the content-type import endpoint
(src/api/routes/contentTypes.js, `router.post("/import")`).

The handler is shallowly embedded as pure Lean functions:
  * `JVal` models the JSON-ish JavaScript values flowing through the
    handler (request body, object properties), together with the JS
    operations the source uses: truthiness, `a || b`, `a ?? b`,
    `String(x)` coercion, property access, `Array.isArray`.
  * `Store` models the two relational tables (content_types,
    content_fields); row identifiers are allocated from counters,
    standing in for the database sequences.
  * `DbState` adds the transaction snapshot: BEGIN records the current
    store, COMMIT drops the snapshot, ROLLBACK restores it.  This gives
    the atomicity boundary the database engine provides.
  * Database errors (constraint violations and the like) are modelled by
    a fault-injection function `fault : Nat -> Option String`: the n-th
    query of a request raises with the given message when
    `fault n = some msg`.  `noFault` is the fault-free run.
  * Timestamps: `NOW()` is modelled by an explicit `now : Nat`
    parameter.  The jsonb serialisation of the field config object is a
    database collaborator; rows keep the structured value instead.

Numbers are modelled as integers (`Int`); no claim depends on
non-integer arithmetic.
-/

/-- JavaScript values as they appear in the request payload. -/
inductive JVal : Type where
  | undef : JVal
  | null : JVal
  | bool : Bool → JVal
  | num : Int → JVal
  | str : String → JVal
  | arr : List JVal → JVal
  | obj : List (String × JVal) → JVal
deriving Repr

/-- JS truthiness: undefined, null, false, 0 and the empty string are
falsy; every array and object is truthy. -/
def jsTruthy : JVal → Bool
  | JVal.undef => false
  | JVal.null => false
  | JVal.bool b => b
  | JVal.num n => n != 0
  | JVal.str s => s ≠ ""
  | JVal.arr _ => true
  | JVal.obj _ => true

/-- JS `a || b`. -/
def jsOr (a b : JVal) : JVal := if jsTruthy a then a else b

/-- JS `a ?? b` (nullish coalescing). -/
def jsCoalesce (a b : JVal) : JVal :=
  match a with
  | JVal.undef => b
  | JVal.null => b
  | v => v

mutual

/-- JS `String(v)` coercion.  Arrays stringify their elements joined by
commas with null and undefined rendered as the empty string
(Array.prototype.join); plain objects give the usual object tag. -/
def jsToString : JVal → String
  | JVal.undef => "undefined"
  | JVal.null => "null"
  | JVal.bool true => "true"
  | JVal.bool false => "false"
  | JVal.num n => toString n
  | JVal.str s => s
  | JVal.arr xs => String.intercalate "," (jsToStringElems xs)
  | JVal.obj _ => "[object Object]"

/-- Stringify the elements of an array for `String(array)`. -/
def jsToStringElems : List JVal → List String
  | [] => []
  | JVal.undef :: rest => "" :: jsToStringElems rest
  | JVal.null :: rest => "" :: jsToStringElems rest
  | v :: rest => jsToString v :: jsToStringElems rest

end

/-- JS `s.trim()`: strip leading and trailing whitespace.  Defined over
the character list so that it evaluates by kernel reduction. -/
def jsTrim (s : String) : String :=
  ⟨((s.data.dropWhile Char.isWhitespace).reverse.dropWhile Char.isWhitespace).reverse⟩

/-- Property access `v.k` / `v?.k`.  On an object the last binding of
the key wins (JS object literal semantics); on every non-object value
the properties the handler reads (slug, key, singular, ...) are absent,
hence undefined.  Optional chaining on null or undefined also yields
undefined, which this covers. -/
def getProp : JVal → String → JVal
  | JVal.obj kvs, k =>
      (kvs.foldl (fun acc p => if p.1 = k then some p.2 else acc) none).getD JVal.undef
  | _, _ => JVal.undef

/-- `Array.isArray(v)` as an Option extracting the element list. -/
def jsAsArray : JVal → Option (List JVal)
  | JVal.arr xs => some xs
  | _ => none

/-- A JS null or undefined reaching a query parameter becomes SQL NULL
(node-postgres maps both to NULL). -/
def isSqlNull : JVal → Bool
  | JVal.null => true
  | JVal.undef => true
  | _ => false

/-- SQL `COALESCE(p, stored)`. -/
def sqlCoalesce (p stored : JVal) : JVal := if isSqlNull p then stored else p

/-- `req.body || \x7b\x7d`. -/
def normBody (body : JVal) : JVal := if jsTruthy body then body else JVal.obj []

/-- A normalized field, the shape produced by the `normalizedFields`
map in the source (the content_type_id slot is filled in only at insert
time and is omitted here). -/
structure NormalizedField : Type where
  field_key : String
  label : String
  type : String
  required : Bool
  help_text : String
  order_index : Int
  config : JVal
deriving Repr

/-- Normalization of one field entry, mirroring the body of
`fields.map((f, index) => ...)` in the source: resolve and trim the
key, drop the entry when it is empty, default label/type/required/
help_text/order_index, and build the config object from the three
optional sub-fields. -/
def normalizeField (f : JVal) (index : Nat) : Option NormalizedField :=
  let fieldKey := jsTrim (jsToString (jsOr (jsOr (getProp f "key") (getProp f "field_key"))
      (JVal.str "")))
  if fieldKey = "" then none
  else
    some
      { field_key := fieldKey
        label := jsTrim (jsToString (jsOr (getProp f "label") (JVal.str fieldKey)))
        type := jsTrim (jsToString (jsOr (getProp f "type") (JVal.str "text")))
        required := jsTruthy (getProp f "required")
        help_text := jsTrim (jsToString (jsOr (getProp f "help_text") (JVal.str "")))
        order_index :=
          match getProp f "order_index" with
          | JVal.num n => n
          | _ => (index : Int)
        config := JVal.obj
          [("optionsSource", jsCoalesce (getProp f "optionsSource") JVal.null),
           ("options", jsCoalesce (getProp f "options") JVal.null),
           ("relation", jsCoalesce (getProp f "relation") JVal.null)] }

/-- `fields.map((f, index) => ...)`; the index argument threads the
position in the original list. -/
def mapFields (index : Nat) : List JVal → List (Option NormalizedField)
  | [] => []
  | f :: rest => normalizeField f index :: mapFields (index + 1) rest

/-- Slug resolution: `String(contentType.slug || contentType.key || "").trim()`. -/
def derivedSlug (ct : JVal) : String :=
  jsTrim (jsToString (jsOr (jsOr (getProp ct "slug") (getProp ct "key")) (JVal.str "")))

/-- Singular label resolution from `singular` / `label_singular`. -/
def derivedSingular (ct : JVal) : String :=
  jsTrim (jsToString (jsOr (jsOr (getProp ct "singular") (getProp ct "label_singular"))
    (JVal.str "")))

/-- Plural label resolution from `plural` / `label_plural`. -/
def derivedPlural (ct : JVal) : String :=
  jsTrim (jsToString (jsOr (jsOr (getProp ct "plural") (getProp ct "label_plural"))
    (JVal.str "")))

/-- A row of the content_types table.  Database-managed columns other
than updated_at (created_at, ...) are omitted; attribute columns keep
the JS value the driver would serialise. -/
structure ContentTypeRow : Type where
  id : Nat
  slug : String
  type : JVal
  label_singular : JVal
  label_plural : JVal
  description : JVal
  icon : JVal
  is_system : JVal
  name : JVal
  updated_at : Nat
deriving Repr

/-- A row of the content_fields table. -/
structure FieldRow : Type where
  id : Nat
  content_type_id : Nat
  field_key : String
  label : String
  type : String
  required : Bool
  help_text : String
  order_index : Int
  config : JVal
deriving Repr

/-- The two tables plus the id sequences. -/
structure Store : Type where
  contentTypes : List ContentTypeRow
  contentFields : List FieldRow
  nextTypeId : Nat
  nextFieldId : Nat
deriving Repr

/-- Connection-level state: the current store plus the snapshot taken
at BEGIN (none when no transaction is open). -/
structure DbState : Type where
  store : Store
  snapshot : Option Store
deriving Repr

def dbBegin (d : DbState) : DbState := { d with snapshot := some d.store }

def dbCommit (d : DbState) : DbState := { d with snapshot := none }

def dbRollback (d : DbState) : DbState :=
  { store := d.snapshot.getD d.store, snapshot := none }

/-- The eight parameters of the update / insert statements for
content_types (minus the slug, which is passed separately). -/
structure TypeParams : Type where
  type : JVal
  label_singular : JVal
  label_plural : JVal
  description : JVal
  icon : JVal
  is_system : JVal
  name : JVal
deriving Repr

/-- Parameters $2..$8 of updateSql: `contentType.type || "content"`,
the two validated labels, `contentType.description || ""`,
`contentType.icon ?? null`, `typeof contentType.is_system === "boolean"
? contentType.is_system : false`, and the plural label as legacy name. -/
def updateParams (ct : JVal) (labelSingular labelPlural : String) : TypeParams :=
  { type := jsOr (getProp ct "type") (JVal.str "content")
    label_singular := JVal.str labelSingular
    label_plural := JVal.str labelPlural
    description := jsOr (getProp ct "description") (JVal.str "")
    icon := jsCoalesce (getProp ct "icon") JVal.null
    is_system :=
      match getProp ct "is_system" with
      | JVal.bool b => JVal.bool b
      | _ => JVal.bool false
    name := JVal.str labelPlural }

/-- Parameters of insertTypeSql; identical to the update parameters
except that is_system is `!!contentType.is_system`. -/
def insertParams (ct : JVal) (labelSingular labelPlural : String) : TypeParams :=
  { type := jsOr (getProp ct "type") (JVal.str "content")
    label_singular := JVal.str labelSingular
    label_plural := JVal.str labelPlural
    description := jsOr (getProp ct "description") (JVal.str "")
    icon := jsCoalesce (getProp ct "icon") JVal.null
    is_system := JVal.bool (jsTruthy (getProp ct "is_system"))
    name := JVal.str labelPlural }

/-- The SET clause of updateSql: each attribute coalesces the parameter
with the stored column; updated_at is set to NOW(). -/
def applyUpdate (r : ContentTypeRow) (ps : TypeParams) (now : Nat) : ContentTypeRow :=
  { r with
    type := sqlCoalesce ps.type r.type
    label_singular := sqlCoalesce ps.label_singular r.label_singular
    label_plural := sqlCoalesce ps.label_plural r.label_plural
    description := sqlCoalesce ps.description r.description
    icon := sqlCoalesce ps.icon r.icon
    is_system := sqlCoalesce ps.is_system r.is_system
    name := sqlCoalesce ps.name r.name
    updated_at := now }

/-- `SELECT id FROM content_types WHERE slug = $1`. -/
def findTypeIdBySlug (s : Store) (slug : String) : Option Nat :=
  (s.contentTypes.find? (fun r => r.slug = slug)).map (fun r => r.id)

/-- updateSql: update every row with the given slug (the slug column is
unique, so at most one) and return the first updated row, as
`updated.rows[0]` does. -/
def dbUpdateType (d : DbState) (slug : String) (ps : TypeParams) (now : Nat) :
    DbState × Option ContentTypeRow :=
  let cts := d.store.contentTypes.map
    (fun r => if r.slug = slug then applyUpdate r ps now else r)
  ({ d with store := { d.store with contentTypes := cts } },
   (d.store.contentTypes.find? (fun r => r.slug = slug)).map (fun r => applyUpdate r ps now))

/-- insertTypeSql: append one new row with a fresh id; updated_at takes
the database default NOW(). -/
def dbInsertType (d : DbState) (slug : String) (ps : TypeParams) (now : Nat) :
    DbState × ContentTypeRow :=
  let row : ContentTypeRow :=
    { id := d.store.nextTypeId
      slug := slug
      type := ps.type
      label_singular := ps.label_singular
      label_plural := ps.label_plural
      description := ps.description
      icon := ps.icon
      is_system := ps.is_system
      name := ps.name
      updated_at := now }
  let s :=
    { d.store with
      contentTypes := d.store.contentTypes ++ [row]
      nextTypeId := d.store.nextTypeId + 1 }
  ({ d with store := s }, row)

/-- `DELETE FROM content_fields WHERE content_type_id = $1`. -/
def dbDeleteFields (d : DbState) (ctid : Nat) : DbState :=
  let fs := d.store.contentFields.filter (fun fr => fr.content_type_id ≠ ctid)
  { d with store := { d.store with contentFields := fs } }

/-- insertFieldSql applied to one normalized field: the in-loop
re-defaults `f.type || "text"`, `f.help_text || ""` and
`f.config || \x7b\x7d` are applied to the already-normalized record. -/
def dbInsertField (d : DbState) (ctid : Nat) (f : NormalizedField) :
    DbState × FieldRow :=
  let row : FieldRow :=
    { id := d.store.nextFieldId
      content_type_id := ctid
      field_key := f.field_key
      label := f.label
      type := if f.type = "" then "text" else f.type
      required := f.required
      help_text := if f.help_text = "" then "" else f.help_text
      order_index := f.order_index
      config := if jsTruthy f.config then f.config else JVal.obj [] }
  let s :=
    { d.store with
      contentFields := d.store.contentFields ++ [row]
      nextFieldId := d.store.nextFieldId + 1 }
  ({ d with store := s }, row)

/-- The JSON responses produced by the handler, one constructor per
return site (validation error, import failure, dry-run report, success). -/
inductive Resp : Type where
  | err : Nat → String → Resp
  | failure : Nat → String → String → Resp
  | dryRunOk : String → Bool → Nat → Nat → Resp
  | ok : ContentTypeRow → Nat → Bool → Resp
deriving Repr

/-- The outcome of the validation and normalization prefix of the
handler (lines up to the NoValidFields check). -/
structure ParsedImport : Type where
  contentType : JVal
  slug : String
  labelSingular : String
  labelPlural : String
  dryRun : JVal
  fieldList : List JVal
  normalizedFields : List NormalizedField
deriving Repr

/-- Validation and normalization, mirroring the handler up to the
dry-run branch.  The source tests `!contentType ||
!Array.isArray(fields)` as a single condition with a single response;
here the array test is the outer match and the truthiness test the
first branch, producing the same response in both failure cases. -/
def parseImport (body : JVal) : Except Resp ParsedImport :=
  let b := normBody body
  let contentType := getProp b "contentType"
  let dryRun :=
    match getProp b "dryRun" with
    | JVal.undef => JVal.bool false
    | v => v
  match jsAsArray (getProp b "fields") with
  | none => Except.error (Resp.err 400 "contentType and fields are required")
  | some fieldList =>
    if jsTruthy contentType = false then
      Except.error (Resp.err 400 "contentType and fields are required")
    else if 500 < fieldList.length then
      Except.error (Resp.err 400
        ("Too many fields (" ++ toString fieldList.length ++ "). Max allowed is 500."))
    else
      let slug := derivedSlug contentType
      let labelSingular := derivedSingular contentType
      let labelPlural := derivedPlural contentType
      if slug = "" ∨ labelSingular = "" ∨ labelPlural = "" then
        Except.error (Resp.err 400
          "contentType.slug (or key), contentType.singular, and contentType.plural are required")
      else
        let normalizedFields := (mapFields 0 fieldList).filterMap id
        if normalizedFields.length = 0 then
          Except.error (Resp.err 400 "No valid fields provided")
        else
          Except.ok
            { contentType := contentType
              slug := slug
              labelSingular := labelSingular
              labelPlural := labelPlural
              dryRun := dryRun
              fieldList := fieldList
              normalizedFields := normalizedFields }


/-- One `client.query(...)` call.  `s` carries the connection state and
the index of the query within the request; the fault function decides
whether this query raises (modelling constraint violations and other
database errors) and with which message. -/
def q (fault : Nat → Option String) (s : DbState × Nat) (f : DbState → DbState × α) :
    Except (DbState × String) ((DbState × Nat) × α) :=
  match fault s.2 with
  | some msg => Except.error (s.1, msg)
  | none => Except.ok (((f s.1).1, s.2 + 1), (f s.1).2)

/-- The fault-free run: no query raises. -/
def noFault : Nat → Option String := fun _ => none

/-- The `for (const f of normalizedFields)` insert loop, accumulating
the RETURNING rows as `insertedFields.push(...)` does. -/
def insertFieldsLoop (fault : Nat → Option String) (ctid : Nat) :
    List NormalizedField → DbState × Nat → List FieldRow →
    Except (DbState × String) ((DbState × Nat) × List FieldRow)
  | [], s, acc => Except.ok (s, acc)
  | f :: rest, s, acc =>
    match q fault s (fun d => dbInsertField d ctid f) with
    | Except.error e => Except.error e
    | Except.ok (s', row) => insertFieldsLoop fault ctid rest s' (acc ++ [row])

/-- The transactional write path (BEGIN .. COMMIT): existence lookup by
slug, then either coalescing update plus field delete, or insert of a
new content-type row; then one insert per normalized field; then
COMMIT.  Errors abort with the state reached so far; `rows[0]` of the
update being absent is the TypeError the source would raise when
reading `.id` of undefined (unreachable single-threaded, kept for
fidelity). -/
def runImportTx (fault : Nat → Option String) (now : Nat) (db0 : DbState)
    (p : ParsedImport) :
    Except (DbState × String) (DbState × ContentTypeRow × List FieldRow × Bool) :=
  match q fault (db0, 0) (fun d => (dbBegin d, ())) with
  | Except.error e => Except.error e
  | Except.ok (s1, _) =>
    match q fault s1 (fun d => (d, findTypeIdBySlug d.store p.slug)) with
    | Except.error e => Except.error e
    | Except.ok (s2, existingId) =>
      match existingId with
      | some _ =>
        match q fault s2
            (fun d => dbUpdateType d p.slug
              (updateParams p.contentType p.labelSingular p.labelPlural) now) with
        | Except.error e => Except.error e
        | Except.ok (s3, none) =>
          Except.error (s3.1, "Cannot read properties of undefined (reading id)")
        | Except.ok (s3, some row) =>
          match q fault s3 (fun d => (dbDeleteFields d row.id, ())) with
          | Except.error e => Except.error e
          | Except.ok (s4, _) =>
            match insertFieldsLoop fault row.id p.normalizedFields s4 [] with
            | Except.error e => Except.error e
            | Except.ok (s5, rows) =>
              match q fault s5 (fun d => (dbCommit d, ())) with
              | Except.error e => Except.error e
              | Except.ok (s6, _) => Except.ok (s6.1, row, rows, true)
      | none =>
        match q fault s2
            (fun d => dbInsertType d p.slug
              (insertParams p.contentType p.labelSingular p.labelPlural) now) with
        | Except.error e => Except.error e
        | Except.ok (s3, row) =>
          match insertFieldsLoop fault row.id p.normalizedFields s3 [] with
          | Except.error e => Except.error e
          | Except.ok (s5, rows) =>
            match q fault s5 (fun d => (dbCommit d, ())) with
            | Except.error e => Except.error e
            | Except.ok (s6, _) => Except.ok (s6.1, row, rows, false)

/-- The whole handler: validation and normalization, the dry-run early
return, the transactional write path, and the catch block (ROLLBACK,
then HTTP 500 with the cause message). -/
def importHandler (fault : Nat → Option String) (now : Nat) (db0 : DbState)
    (body : JVal) : DbState × Resp :=
  match parseImport body with
  | Except.error r => (db0, r)
  | Except.ok p =>
    if jsTruthy p.dryRun then
      (db0, Resp.dryRunOk p.slug true p.fieldList.length p.normalizedFields.length)
    else
      match runImportTx fault now db0 p with
      | Except.ok (db, row, rows, replaced) => (db, Resp.ok row rows.length replaced)
      | Except.error (db, msg) => (dbRollback db, Resp.failure 500 "Import failed" msg)

/-- The row inserted for one normalized field when the id sequence is
at `idv` (the RETURNING shape of insertFieldSql). -/
def mkFieldRow (ctid : Nat) (idv : Nat) (f : NormalizedField) : FieldRow :=
  { id := idv
    content_type_id := ctid
    field_key := f.field_key
    label := f.label
    type := if f.type = "" then "text" else f.type
    required := f.required
    help_text := if f.help_text = "" then "" else f.help_text
    order_index := f.order_index
    config := if jsTruthy f.config then f.config else JVal.obj [] }

/-- The list of field rows the insert loop produces for a given content
type id when ids are allocated from `startId`: one row per normalized
field, in list order. -/
def mkFieldRows (ctid : Nat) (startId : Nat) : List NormalizedField → List FieldRow
  | [] => []
  | f :: rest => mkFieldRow ctid startId f :: mkFieldRows ctid (startId + 1) rest

/-! Concrete sample data used by the witness theorems. -/

def sampleCT : JVal := JVal.obj
  [("slug", JVal.str "case"), ("singular", JVal.str "Case"), ("plural", JVal.str "Cases")]

def sampleFieldObj : JVal := JVal.obj
  [("key", JVal.str "status"), ("type", JVal.str "select")]

def sampleBody : JVal := JVal.obj
  [("contentType", sampleCT), ("fields", JVal.arr [sampleFieldObj])]

def sampleNF : NormalizedField :=
  { field_key := "status", label := "status", type := "select", required := false,
    help_text := "", order_index := 0,
    config := JVal.obj [("optionsSource", JVal.null), ("options", JVal.null),
      ("relation", JVal.null)] }

def sampleParsed : ParsedImport :=
  { contentType := sampleCT, slug := "case", labelSingular := "Case",
    labelPlural := "Cases", dryRun := JVal.bool false,
    fieldList := [sampleFieldObj], normalizedFields := [sampleNF] }

def sampleRow : ContentTypeRow :=
  { id := 1, slug := "case", type := JVal.str "content",
    label_singular := JVal.str "Old", label_plural := JVal.str "Olds",
    description := JVal.str "old words", icon := JVal.null,
    is_system := JVal.bool false, name := JVal.str "Olds", updated_at := 0 }

def sampleOldField : FieldRow :=
  { id := 5, content_type_id := 1, field_key := "old", label := "old", type := "text",
    required := false, help_text := "", order_index := 0, config := JVal.obj [] }

def emptyStore : Store :=
  { contentTypes := [], contentFields := [], nextTypeId := 1, nextFieldId := 1 }

def emptyDb : DbState := { store := emptyStore, snapshot := none }

def caseStore : Store :=
  { contentTypes := [sampleRow], contentFields := [sampleOldField],
    nextTypeId := 2, nextFieldId := 9 }

def dbWithCase : DbState := { store := caseStore, snapshot := none }

/-! Helper lemmas. -/

/-- A truthy JS value is never null or undefined, hence never SQL NULL. -/
theorem truthy_not_sqlNull (v : JVal) (h : jsTruthy v = true) : isSqlNull v = false := by
  cases v with
  | undef => simp [jsTruthy] at h
  | null => simp [jsTruthy] at h
  | bool b => rfl
  | num n => rfl
  | str s => rfl
  | arr xs => rfl
  | obj kvs => rfl

theorem dropWhile_rdropWhile_dropWhile (p : α → Bool) (l : List α) :
    List.dropWhile p (List.rdropWhile p (List.dropWhile p l)) =
      List.rdropWhile p (List.dropWhile p l) := by
  obtain ⟨t, ht⟩ := List.rdropWhile_prefix p (List.dropWhile p l)
  cases hR : List.rdropWhile p (List.dropWhile p l) with
  | nil => simp
  | cons a as =>
    have hm : List.dropWhile p l = a :: (as ++ t) := by rw [← ht, hR]; simp
    have hhd := List.head?_dropWhile_not p l
    rw [hm] at hhd
    simp only [List.head?_cons] at hhd
    simp [List.dropWhile_cons, hhd]

/-- Trimming is idempotent at the character-list level. -/
theorem trim_list_idem (p : α → Bool) (l : List α) :
    List.rdropWhile p (List.dropWhile p (List.rdropWhile p (List.dropWhile p l))) =
      List.rdropWhile p (List.dropWhile p l) := by
  rw [dropWhile_rdropWhile_dropWhile, List.rdropWhile_eq_self_iff]
  intro hl
  exact List.rdropWhile_last_not _ _ hl

/-- jsTrim agrees with dropWhile plus rdropWhile on the data. -/
theorem jsTrim_data (s : String) :
    jsTrim s = ⟨List.rdropWhile Char.isWhitespace
      (List.dropWhile Char.isWhitespace s.data)⟩ := rfl

/-- Trimming an already trimmed string changes nothing. -/
theorem jsTrim_jsTrim (s : String) : jsTrim (jsTrim s) = jsTrim s := by
  rw [jsTrim_data, jsTrim_data]
  exact congrArg String.mk (trim_list_idem _ _)

/-- C6: on the update path for an existing slug, updateSql returns the
coalesced row: each content-type attribute (kind tag, singular label,
plural label, description, icon, system flag, derived display name) is
overwritten exactly when the corresponding parameter derived from the
normalized input is non-null and is preserved otherwise, and the
modification timestamp is set to the current time. -/
theorem update_coalesce_per_attribute (d : DbState) (slug : String) (ct : JVal)
    (ls lp : String) (now : Nat) (r : ContentTypeRow) (ps : TypeParams)
    (_hps : ps = updateParams ct ls lp)
    (hr : d.store.contentTypes.find? (fun x => x.slug = slug) = some r) :
    (dbUpdateType d slug ps now).2 = some (applyUpdate r ps now) ∧
    (applyUpdate r ps now).updated_at = now ∧
    (applyUpdate r ps now).id = r.id ∧
    (applyUpdate r ps now).slug = r.slug ∧
    (isSqlNull ps.type = true → (applyUpdate r ps now).type = r.type) ∧
    (isSqlNull ps.type = false → (applyUpdate r ps now).type = ps.type) ∧
    (isSqlNull ps.label_singular = true →
      (applyUpdate r ps now).label_singular = r.label_singular) ∧
    (isSqlNull ps.label_singular = false →
      (applyUpdate r ps now).label_singular = ps.label_singular) ∧
    (isSqlNull ps.label_plural = true →
      (applyUpdate r ps now).label_plural = r.label_plural) ∧
    (isSqlNull ps.label_plural = false →
      (applyUpdate r ps now).label_plural = ps.label_plural) ∧
    (isSqlNull ps.description = true →
      (applyUpdate r ps now).description = r.description) ∧
    (isSqlNull ps.description = false →
      (applyUpdate r ps now).description = ps.description) ∧
    (isSqlNull ps.icon = true → (applyUpdate r ps now).icon = r.icon) ∧
    (isSqlNull ps.icon = false → (applyUpdate r ps now).icon = ps.icon) ∧
    (isSqlNull ps.is_system = true → (applyUpdate r ps now).is_system = r.is_system) ∧
    (isSqlNull ps.is_system = false → (applyUpdate r ps now).is_system = ps.is_system) ∧
    (isSqlNull ps.name = true → (applyUpdate r ps now).name = r.name) ∧
    (isSqlNull ps.name = false → (applyUpdate r ps now).name = ps.name) := by
  refine ⟨by simp [dbUpdateType, hr], rfl, rfl, rfl, ?_, ?_, ?_, ?_, ?_, ?_, ?_, ?_,
    ?_, ?_, ?_, ?_, ?_, ?_⟩ <;>
    (intro h; simp [applyUpdate, sqlCoalesce, h])

/-- Witness for C6 at a concrete store and payload. -/
theorem update_coalesce_per_attribute_witness :
    (dbUpdateType dbWithCase "case" (updateParams sampleCT "Case" "Cases") 7).2 =
      some (applyUpdate sampleRow (updateParams sampleCT "Case" "Cases") 7) :=
  (update_coalesce_per_attribute dbWithCase "case" sampleCT "Case" "Cases" 7
    sampleRow (updateParams sampleCT "Case" "Cases") rfl rfl).1

/-- C9: on the update path the parameters bound to every attribute
except icon are never SQL NULL: the kind tag defaults to the string
"content" when the input kind is falsy, the description parameter
defaults to the empty string, the system flag defaults to the boolean
false when no boolean was given, and name is always the plural label.
Consequently the coalescing update overwrites every attribute other
than icon unconditionally (an absent description stores the empty
string), and only the stored icon can be preserved. -/
theorem update_params_overwrite (ct : JVal) (ls lp : String) (r : ContentTypeRow)
    (now : Nat) (ps : TypeParams) (hps : ps = updateParams ct ls lp) :
    isSqlNull ps.type = false ∧
    isSqlNull ps.label_singular = false ∧
    isSqlNull ps.label_plural = false ∧
    isSqlNull ps.description = false ∧
    isSqlNull ps.is_system = false ∧
    isSqlNull ps.name = false ∧
    (jsTruthy (getProp ct "type") = false → ps.type = JVal.str "content") ∧
    (jsTruthy (getProp ct "description") = false → ps.description = JVal.str "") ∧
    ((∀ b, getProp ct "is_system" ≠ JVal.bool b) → ps.is_system = JVal.bool false) ∧
    ps.name = JVal.str lp ∧
    ps.label_singular = JVal.str ls ∧
    ps.label_plural = JVal.str lp ∧
    (applyUpdate r ps now).type = ps.type ∧
    (applyUpdate r ps now).label_singular = JVal.str ls ∧
    (applyUpdate r ps now).label_plural = JVal.str lp ∧
    (applyUpdate r ps now).description = ps.description ∧
    (applyUpdate r ps now).is_system = ps.is_system ∧
    (applyUpdate r ps now).name = JVal.str lp ∧
    (getProp ct "description" = JVal.undef →
      (applyUpdate r ps now).description = JVal.str "") ∧
    (applyUpdate r ps now).icon = sqlCoalesce ps.icon r.icon ∧
    (isSqlNull (getProp ct "icon") = true → (applyUpdate r ps now).icon = r.icon) := by
  subst hps
  have htype : isSqlNull (updateParams ct ls lp).type = false := by
    by_cases hg : jsTruthy (getProp ct "type") = true
    · simp [updateParams, jsOr, hg, truthy_not_sqlNull _ hg]
    · simp [updateParams, jsOr, hg, isSqlNull]
  have hdesc : isSqlNull (updateParams ct ls lp).description = false := by
    by_cases hg : jsTruthy (getProp ct "description") = true
    · simp [updateParams, jsOr, hg, truthy_not_sqlNull _ hg]
    · simp [updateParams, jsOr, hg, isSqlNull]
  have hsys : isSqlNull (updateParams ct ls lp).is_system = false := by
    simp only [updateParams]
    rcases getProp ct "is_system" <;> rfl
  refine ⟨htype, rfl, rfl, hdesc, hsys, rfl, ?_, ?_, ?_, rfl, rfl, rfl,
    ?_, ?_, ?_, ?_, ?_, ?_, ?_, rfl, ?_⟩
  · intro h; simp [updateParams, jsOr, h]
  · intro h; simp [updateParams, jsOr, h]
  · intro h
    simp only [updateParams]
  · simp [applyUpdate, sqlCoalesce, htype]
  · simp [applyUpdate, sqlCoalesce, updateParams, isSqlNull]
  · simp [applyUpdate, sqlCoalesce, updateParams, isSqlNull]
  · simp [applyUpdate, sqlCoalesce, hdesc]
  · simp [applyUpdate, sqlCoalesce, hsys]
  · simp [applyUpdate, sqlCoalesce, updateParams, isSqlNull]
  · intro h; simp [applyUpdate, sqlCoalesce, updateParams, jsOr, h, jsTruthy, isSqlNull]
  · intro h
    rcases hv : getProp ct "icon" with _ | _ | b | n | s | xs | kvs <;> rw [hv] at h
    · simp [applyUpdate, updateParams, sqlCoalesce, jsCoalesce, hv, isSqlNull]
    · simp [applyUpdate, updateParams, sqlCoalesce, jsCoalesce, hv, isSqlNull]
    · simp [isSqlNull] at h
    · simp [isSqlNull] at h
    · simp [isSqlNull] at h
    · simp [isSqlNull] at h
    · simp [isSqlNull] at h

/-- Witness for C9 at a concrete payload: the stored description is
overwritten even though the payload carries none. -/
theorem update_params_overwrite_witness :
    (applyUpdate sampleRow (updateParams sampleCT "Case" "Cases") 7).description =
      JVal.str "" :=
  (update_params_overwrite sampleCT "Case" "Cases" sampleRow 7
    (updateParams sampleCT "Case" "Cases") rfl).2.2.2.2.2.2.2.2.2.2.2.2.2.2.2.2.2.2.1 rfl

/-- C7: each field entry is normalized independently.  The key is the
first truthy of the two alternate input keys, stringified and trimmed;
an entry whose resolved key is empty is dropped (mapped to none, hence
silently filtered, not an error).  The label falls back to the resolved
key when the label input is absent or falsy, the type falls back to the
string "text", required is the boolean coercion of the input (false
when absent), the order index is the explicit numeric input and
otherwise the position in the input list, and the config object is
built from the three optional sub-fields, each nullish-coalesced to
null when absent. -/
theorem normalize_field_spec (f : JVal) (index : Nat) :
    (jsTrim (jsToString (jsOr (jsOr (getProp f "key") (getProp f "field_key"))
        (JVal.str ""))) = "" → normalizeField f index = none) ∧
    (∀ nf, normalizeField f index = some nf →
      nf.field_key = jsTrim (jsToString (jsOr (jsOr (getProp f "key")
        (getProp f "field_key")) (JVal.str ""))) ∧
      nf.field_key ≠ "" ∧
      (jsTruthy (getProp f "key") = true →
        nf.field_key = jsTrim (jsToString (getProp f "key"))) ∧
      (jsTruthy (getProp f "key") = false → jsTruthy (getProp f "field_key") = true →
        nf.field_key = jsTrim (jsToString (getProp f "field_key"))) ∧
      (jsTruthy (getProp f "label") = false → nf.label = nf.field_key) ∧
      (jsTruthy (getProp f "type") = false → nf.type = "text") ∧
      nf.required = jsTruthy (getProp f "required") ∧
      (getProp f "required" = JVal.undef → nf.required = false) ∧
      (∀ n, getProp f "order_index" = JVal.num n → nf.order_index = n) ∧
      ((∀ n, getProp f "order_index" ≠ JVal.num n) → nf.order_index = (index : Int)) ∧
      nf.config = JVal.obj
        [("optionsSource", jsCoalesce (getProp f "optionsSource") JVal.null),
         ("options", jsCoalesce (getProp f "options") JVal.null),
         ("relation", jsCoalesce (getProp f "relation") JVal.null)] ∧
      (getProp f "optionsSource" = JVal.undef →
        getProp nf.config "optionsSource" = JVal.null) ∧
      (getProp f "options" = JVal.undef → getProp nf.config "options" = JVal.null) ∧
      (getProp f "relation" = JVal.undef → getProp nf.config "relation" = JVal.null)) := by
  constructor
  · intro h
    simp [normalizeField, h]
  · intro nf hnf
    simp only [normalizeField] at hnf
    by_cases hk : jsTrim (jsToString (jsOr (jsOr (getProp f "key")
        (getProp f "field_key")) (JVal.str ""))) = ""
    · simp [hk] at hnf
    · rw [if_neg hk] at hnf
      cases hnf
      refine ⟨rfl, hk, ?_, ?_, ?_, ?_, rfl, ?_, ?_, ?_, rfl, ?_, ?_, ?_⟩
      · intro h
        simp [jsOr, h]
      · intro h1 h2
        simp [jsOr, h1, h2]
      · intro h
        simp only [jsOr, h]
        exact jsTrim_jsTrim _
      · intro h
        simp [jsOr, h, jsToString]
        decide
      · intro h
        simp [h, jsTruthy]
      · intro n h
        simp [h]
      · intro h
        simp only []
      · intro h
        show jsCoalesce (getProp f "optionsSource") JVal.null = JVal.null
        rw [h]
        rfl
      · intro h
        show jsCoalesce (getProp f "options") JVal.null = JVal.null
        rw [h]
        rfl
      · intro h
        show jsCoalesce (getProp f "relation") JVal.null = JVal.null
        rw [h]
        rfl

/-- Witness for C7: an entry whose key is only whitespace is dropped. -/
theorem normalize_field_spec_witness :
    normalizeField (JVal.obj [("key", JVal.str "   ")]) 3 = none :=
  (normalize_field_spec (JVal.obj [("key", JVal.str "   ")]) 3).1 rfl

/-- On every non-object value all properties are undefined. -/
theorem getProp_eq_undef_of_not_obj (v : JVal) (h : ∀ kvs, v ≠ JVal.obj kvs)
    (k : String) : getProp v k = JVal.undef := by
  cases v with
  | obj kvs => exact absurd rfl (h kvs)
  | undef => rfl
  | null => rfl
  | bool b => rfl
  | num n => rfl
  | str s => rfl
  | arr xs => rfl

/-- The TooManyFields message never coincides with the InvalidPayload
message. -/
theorem tooMany_ne_invalid (n : Nat) :
    ("Too many fields (" ++ toString n ++ "). Max allowed is 500.") ≠
      "contentType and fields are required" := by
  intro h
  have hd := congrArg String.data h
  simp only [String.data_append] at hd
  simp at hd

/-- Validation outcome when the resolved slug or either label is empty
(and the earlier checks pass). -/
theorem parseImport_missing (body : JVal) (l : List JVal)
    (harr : jsAsArray (getProp (normBody body) "fields") = some l)
    (htr : jsTruthy (getProp (normBody body) "contentType") = true)
    (hlen : l.length ≤ 500)
    (hempty : derivedSlug (getProp (normBody body) "contentType") = "" ∨
      derivedSingular (getProp (normBody body) "contentType") = "" ∨
      derivedPlural (getProp (normBody body) "contentType") = "") :
    parseImport body = Except.error (Resp.err 400
      "contentType.slug (or key), contentType.singular, and contentType.plural are required") := by
  have hnl : ¬ (500 < l.length) := by omega
  simp only [parseImport, harr, htr, hnl]
  simp only [Bool.true_eq_false, if_false, if_neg hnl]
  rw [if_pos hempty]

/-- Validation outcome when the field list is over the ceiling (and the
payload shape check passes). -/
theorem parseImport_tooMany (body : JVal) (l : List JVal)
    (harr : jsAsArray (getProp (normBody body) "fields") = some l)
    (htr : jsTruthy (getProp (normBody body) "contentType") = true)
    (hlen : 500 < l.length) :
    parseImport body = Except.error (Resp.err 400
      ("Too many fields (" ++ toString l.length ++ "). Max allowed is 500.")) := by
  simp only [parseImport, harr, htr, hlen]
  simp

/-- C8: the slug is the first truthy of the two alternate inputs slug
and key, stringified and trimmed (empty when both are falsy); the
singular and plural labels are derived the same way from singular and
label_singular, respectively plural and label_plural; and whenever any
of the three resolves empty after trimming (with the earlier checks
passing) the service answers HTTP 400 with the
MissingRequiredAttributes message, touching no state. -/
theorem slug_and_label_derivation (ct : JVal) :
    (∀ s, getProp ct "slug" = JVal.str s → s ≠ "" → derivedSlug ct = jsTrim s) ∧
    (jsTruthy (getProp ct "slug") = false →
      ∀ k, getProp ct "key" = JVal.str k → k ≠ "" → derivedSlug ct = jsTrim k) ∧
    (jsTruthy (getProp ct "slug") = false → jsTruthy (getProp ct "key") = false →
      derivedSlug ct = "") ∧
    (∀ s, getProp ct "singular" = JVal.str s → s ≠ "" → derivedSingular ct = jsTrim s) ∧
    (jsTruthy (getProp ct "singular") = false →
      ∀ k, getProp ct "label_singular" = JVal.str k → k ≠ "" →
        derivedSingular ct = jsTrim k) ∧
    (jsTruthy (getProp ct "singular") = false →
      jsTruthy (getProp ct "label_singular") = false → derivedSingular ct = "") ∧
    (∀ s, getProp ct "plural" = JVal.str s → s ≠ "" → derivedPlural ct = jsTrim s) ∧
    (jsTruthy (getProp ct "plural") = false →
      ∀ k, getProp ct "label_plural" = JVal.str k → k ≠ "" →
        derivedPlural ct = jsTrim k) ∧
    (jsTruthy (getProp ct "plural") = false →
      jsTruthy (getProp ct "label_plural") = false → derivedPlural ct = "") ∧
    (∀ (fault : Nat → Option String) (now : Nat) (db0 : DbState) (body : JVal)
        (l : List JVal),
      getProp (normBody body) "contentType" = ct →
      jsTruthy ct = true →
      jsAsArray (getProp (normBody body) "fields") = some l →
      l.length ≤ 500 →
      (derivedSlug ct = "" ∨ derivedSingular ct = "" ∨ derivedPlural ct = "") →
      importHandler fault now db0 body =
        (db0, Resp.err 400
          "contentType.slug (or key), contentType.singular, and contentType.plural are required")) := by
  refine ⟨?_, ?_, ?_, ?_, ?_, ?_, ?_, ?_, ?_, ?_⟩
  · intro s h1 h2
    simp [derivedSlug, jsOr, h1, jsTruthy, h2, jsToString]
  · intro h1 k h2 h3
    simp only [derivedSlug, jsOr, h1, h2, Bool.false_eq_true, if_false]
    simp [jsTruthy, h3, jsToString]
  · intro h1 h2
    simp [derivedSlug, jsOr, h1, h2, jsToString]
    rfl
  · intro s h1 h2
    simp [derivedSingular, jsOr, h1, jsTruthy, h2, jsToString]
  · intro h1 k h2 h3
    simp only [derivedSingular, jsOr, h1, h2, Bool.false_eq_true, if_false]
    simp [jsTruthy, h3, jsToString]
  · intro h1 h2
    simp [derivedSingular, jsOr, h1, h2, jsToString]
    rfl
  · intro s h1 h2
    simp [derivedPlural, jsOr, h1, jsTruthy, h2, jsToString]
  · intro h1 k h2 h3
    simp only [derivedPlural, jsOr, h1, h2, Bool.false_eq_true, if_false]
    simp [jsTruthy, h3, jsToString]
  · intro h1 h2
    simp [derivedPlural, jsOr, h1, h2, jsToString]
    rfl
  · intro fault now db0 body l hct htr harr hlen hempty
    rw [← hct] at htr hempty
    have hp := parseImport_missing body l harr htr hlen hempty
    simp [importHandler, hp]

/-- Witness for C8: a payload carrying a slug but no labels fails with
the MissingRequiredAttributes response. -/
theorem slug_and_label_derivation_witness :
    importHandler noFault 0 emptyDb (JVal.obj
      [("contentType", JVal.obj [("slug", JVal.str "case")]),
       ("fields", JVal.arr [sampleFieldObj])]) =
      (emptyDb, Resp.err 400
        "contentType.slug (or key), contentType.singular, and contentType.plural are required") :=
  (slug_and_label_derivation (JVal.obj [("slug", JVal.str "case")])).2.2.2.2.2.2.2.2.2
    noFault 0 emptyDb _ [sampleFieldObj] rfl rfl rfl (by decide) (Or.inr (Or.inl rfl))

/-- C10: the InvalidPayload check only tests that contentType is truthy
and that fields is an array.  A truthy non-object contentType together
with an array fields is never rejected with the InvalidPayload
response; the request proceeds to slug derivation, where no property
resolves on a non-object, so (within the field ceiling) it fails with
the MissingRequiredAttributes response instead. -/
theorem invalid_payload_truthiness_only (fault : Nat → Option String) (now : Nat)
    (db0 : DbState) (body : JVal) (ct : JVal) (l : List JVal)
    (hct : getProp (normBody body) "contentType" = ct)
    (htr : jsTruthy ct = true)
    (hobj : ∀ kvs, ct ≠ JVal.obj kvs)
    (harr : jsAsArray (getProp (normBody body) "fields") = some l) :
    (importHandler fault now db0 body).2 ≠
      Resp.err 400 "contentType and fields are required" ∧
    (l.length ≤ 500 →
      importHandler fault now db0 body =
        (db0, Resp.err 400
          "contentType.slug (or key), contentType.singular, and contentType.plural are required")) := by
  have hslug : derivedSlug ct = "" := by
    simp [derivedSlug, getProp_eq_undef_of_not_obj ct hobj, jsOr, jsTruthy, jsToString]
    rfl
  rw [← hct] at htr
  constructor
  · by_cases hlen : l.length ≤ 500
    · have hp := parseImport_missing body l harr htr hlen
        (by rw [hct]; exact Or.inl hslug)
      simp [importHandler, hp]
    · have hp := parseImport_tooMany body l harr htr (by omega)
      simp only [importHandler, hp]
      intro h
      injection h with hs hm
      exact tooMany_ne_invalid l.length hm
  · intro hlen
    have hp := parseImport_missing body l harr htr hlen
      (by rw [hct]; exact Or.inl hslug)
    simp [importHandler, hp]

/-- Witness for C10: a non-empty string contentType with an array of
fields falls through to the MissingRequiredAttributes response. -/
theorem invalid_payload_truthiness_only_witness :
    importHandler noFault 0 emptyDb (JVal.obj
      [("contentType", JVal.str "case"), ("fields", JVal.arr [sampleFieldObj])]) =
      (emptyDb, Resp.err 400
        "contentType.slug (or key), contentType.singular, and contentType.plural are required") :=
  (invalid_payload_truthiness_only noFault 0 emptyDb
    (JVal.obj [("contentType", JVal.str "case"), ("fields", JVal.arr [sampleFieldObj])])
    (JVal.str "case")
    [sampleFieldObj] rfl rfl (fun kvs h => JVal.noConfusion h) rfl).2 (by decide)

/-- Validation outcome when normalization drops every field entry (and
the earlier checks pass). -/
theorem parseImport_noValid (body : JVal) (l : List JVal)
    (harr : jsAsArray (getProp (normBody body) "fields") = some l)
    (htr : jsTruthy (getProp (normBody body) "contentType") = true)
    (hlen : l.length ≤ 500)
    (hne : ¬ (derivedSlug (getProp (normBody body) "contentType") = "" ∨
      derivedSingular (getProp (normBody body) "contentType") = "" ∨
      derivedPlural (getProp (normBody body) "contentType") = ""))
    (hzero : ((mapFields 0 l).filterMap id).length = 0) :
    parseImport body = Except.error (Resp.err 400 "No valid fields provided") := by
  have hnl : ¬ (500 < l.length) := by omega
  simp only [parseImport, harr, htr, hnl]
  simp only [Bool.true_eq_false, if_false, if_neg hnl]
  rw [if_neg hne, if_pos hzero]

/-- Inversion of a successful validation run: the parsed record is
exactly what the derivation and normalization functions produce, and
every check passed. -/
theorem parseImport_ok_inv (body : JVal) (p : ParsedImport)
    (h : parseImport body = Except.ok p) :
    jsAsArray (getProp (normBody body) "fields") = some p.fieldList ∧
    p.contentType = getProp (normBody body) "contentType" ∧
    jsTruthy p.contentType = true ∧
    p.fieldList.length ≤ 500 ∧
    p.slug = derivedSlug p.contentType ∧
    p.labelSingular = derivedSingular p.contentType ∧
    p.labelPlural = derivedPlural p.contentType ∧
    p.slug ≠ "" ∧ p.labelSingular ≠ "" ∧ p.labelPlural ≠ "" ∧
    p.normalizedFields = (mapFields 0 p.fieldList).filterMap id ∧
    p.normalizedFields.length ≠ 0 := by
  simp only [parseImport] at h
  cases harr : jsAsArray (getProp (normBody body) "fields") with
  | none => rw [harr] at h; simp at h
  | some l =>
    rw [harr] at h
    dsimp only at h
    by_cases htr : jsTruthy (getProp (normBody body) "contentType") = false
    · rw [if_pos htr] at h; simp at h
    · rw [if_neg htr] at h
      by_cases hlen : 500 < l.length
      · rw [if_pos hlen] at h; simp at h
      · rw [if_neg hlen] at h
        by_cases hempty : derivedSlug (getProp (normBody body) "contentType") = "" ∨
            derivedSingular (getProp (normBody body) "contentType") = "" ∨
            derivedPlural (getProp (normBody body) "contentType") = ""
        · rw [if_pos hempty] at h; simp at h
        · rw [if_neg hempty] at h
          by_cases hzero : ((mapFields 0 l).filterMap id).length = 0
          · rw [if_pos hzero] at h; simp at h
          · rw [if_neg hzero] at h
            injection h with h'
            subst h'
            push_neg at hempty
            dsimp only
            refine ⟨rfl, rfl, ?_, by omega, rfl, rfl, rfl,
              hempty.1, hempty.2.1, hempty.2.2, rfl, hzero⟩
            exact Bool.not_eq_false _ |>.mp htr

/-- C4: the four validation checks run in a fixed order: InvalidPayload
(contentType falsy or fields not an array), then TooManyFields
(strictly more than 500 entries, so exactly 500 passes), then
MissingRequiredAttributes, then NoValidFields.  The first failing
check determines the HTTP 400 response, the state is returned
untouched, and no transaction is opened. -/
theorem validation_order_first_failure_wins (fault : Nat → Option String)
    (now : Nat) (db0 : DbState) (body : JVal) :
    ((jsTruthy (getProp (normBody body) "contentType") = false ∨
        jsAsArray (getProp (normBody body) "fields") = none) →
      importHandler fault now db0 body =
        (db0, Resp.err 400 "contentType and fields are required")) ∧
    (∀ l, jsAsArray (getProp (normBody body) "fields") = some l →
      jsTruthy (getProp (normBody body) "contentType") = true →
      500 < l.length →
      importHandler fault now db0 body =
        (db0, Resp.err 400
          ("Too many fields (" ++ toString l.length ++ "). Max allowed is 500."))) ∧
    (∀ l, jsAsArray (getProp (normBody body) "fields") = some l →
      jsTruthy (getProp (normBody body) "contentType") = true →
      l.length ≤ 500 →
      (derivedSlug (getProp (normBody body) "contentType") = "" ∨
        derivedSingular (getProp (normBody body) "contentType") = "" ∨
        derivedPlural (getProp (normBody body) "contentType") = "") →
      importHandler fault now db0 body =
        (db0, Resp.err 400
          "contentType.slug (or key), contentType.singular, and contentType.plural are required")) ∧
    (∀ l, jsAsArray (getProp (normBody body) "fields") = some l →
      jsTruthy (getProp (normBody body) "contentType") = true →
      l.length ≤ 500 →
      ¬ (derivedSlug (getProp (normBody body) "contentType") = "" ∨
        derivedSingular (getProp (normBody body) "contentType") = "" ∨
        derivedPlural (getProp (normBody body) "contentType") = "") →
      ((mapFields 0 l).filterMap id).length = 0 →
      importHandler fault now db0 body =
        (db0, Resp.err 400 "No valid fields provided")) := by
  refine ⟨?_, ?_, ?_, ?_⟩
  · intro h
    rcases h with h | h
    · cases harr : jsAsArray (getProp (normBody body) "fields") with
      | none => simp [importHandler, parseImport, harr]
      | some l => simp [importHandler, parseImport, harr, h]
    · simp [importHandler, parseImport, h]
  · intro l harr htr hlen
    simp [importHandler, parseImport_tooMany body l harr htr hlen]
  · intro l harr htr hlen hempty
    simp [importHandler, parseImport_missing body l harr htr hlen hempty]
  · intro l harr htr hlen hne hzero
    simp [importHandler, parseImport_noValid body l harr htr hlen hne hzero]

/-- Witness for C4: a body with no fields array is rejected as
InvalidPayload with the state untouched. -/
theorem validation_order_first_failure_wins_witness :
    importHandler noFault 0 emptyDb (JVal.obj [("contentType", sampleCT)]) =
      (emptyDb, Resp.err 400 "contentType and fields are required") :=
  (validation_order_first_failure_wins noFault 0 emptyDb
    (JVal.obj [("contentType", sampleCT)])).1 (Or.inr rfl)

/-- C5: a dry-run request that passes validation returns the state
untouched (no reads, no existence check, no writes) together with the
dry-run report: the resolved slug, willCreateOrUpdate true, the length
of the raw field list, and the number of fields that survived
normalization. -/
theorem dry_run_reports_without_writes (fault : Nat → Option String) (now : Nat)
    (db0 : DbState) (body : JVal) (p : ParsedImport)
    (hp : parseImport body = Except.ok p)
    (hdr : jsTruthy p.dryRun = true) :
    importHandler fault now db0 body =
      (db0, Resp.dryRunOk p.slug true p.fieldList.length p.normalizedFields.length) ∧
    jsAsArray (getProp (normBody body) "fields") = some p.fieldList ∧
    p.slug = derivedSlug (getProp (normBody body) "contentType") ∧
    p.normalizedFields = (mapFields 0 p.fieldList).filterMap id := by
  have inv := parseImport_ok_inv body p hp
  refine ⟨by simp [importHandler, hp, hdr], inv.1, ?_, inv.2.2.2.2.2.2.2.2.2.2.1⟩
  rw [inv.2.2.2.2.1, inv.2.1]

def sampleDryBody : JVal := JVal.obj
  [("contentType", sampleCT), ("fields", JVal.arr [sampleFieldObj]),
   ("dryRun", JVal.bool true)]

def sampleDryParsed : ParsedImport :=
  { contentType := sampleCT, slug := "case", labelSingular := "Case",
    labelPlural := "Cases", dryRun := JVal.bool true,
    fieldList := [sampleFieldObj], normalizedFields := [sampleNF] }

/-- Witness for C5 at a concrete dry-run payload. -/
theorem dry_run_reports_without_writes_witness :
    importHandler noFault 0 dbWithCase sampleDryBody =
      (dbWithCase, Resp.dryRunOk "case" true 1 1) :=
  (dry_run_reports_without_writes noFault 0 dbWithCase sampleDryBody
    sampleDryParsed rfl rfl).1

theorem q_noFault (s : DbState × Nat) (f : DbState → DbState × α) :
    q noFault s f = Except.ok (((f s.1).1, s.2 + 1), (f s.1).2) := rfl

/-- The connection state after running the insert loop from `d`. -/
def afterInserts (d : DbState) (ctid : Nat) : List NormalizedField → DbState
  | [] => d
  | f :: rest => afterInserts (dbInsertField d ctid f).1 ctid rest

theorem mkFieldRows_length (ctid : Nat) (nf : List NormalizedField) :
    ∀ startId, (mkFieldRows ctid startId nf).length = nf.length := by
  induction nf with
  | nil => intro s; rfl
  | cons f rest ih => intro s; simp [mkFieldRows, ih]

theorem mkFieldRows_ctid (ctid : Nat) (nf : List NormalizedField) :
    ∀ startId, ∀ fr ∈ mkFieldRows ctid startId nf, fr.content_type_id = ctid := by
  induction nf with
  | nil => intro s fr hfr; simp [mkFieldRows] at hfr
  | cons f rest ih =>
    intro s fr hfr
    rcases List.mem_cons.mp hfr with h | h
    · subst h; rfl
    · exact ih (s + 1) fr h

theorem mkFieldRows_getElem (ctid : Nat) (nf : List NormalizedField) :
    ∀ startId i, (mkFieldRows ctid startId nf)[i]? =
      (nf[i]?).map (fun f => mkFieldRow ctid (startId + i) f) := by
  induction nf with
  | nil => intro s i; simp [mkFieldRows]
  | cons f rest ih =>
    intro s i
    cases i with
    | zero => simp [mkFieldRows]
    | succ j =>
      simp only [mkFieldRows, List.getElem?_cons_succ, ih (s + 1) j]
      have : s + 1 + j = s + (j + 1) := by omega
      rw [this]

theorem afterInserts_spec (ctid : Nat) (nf : List NormalizedField) :
    ∀ d : DbState,
      (afterInserts d ctid nf).store.contentTypes = d.store.contentTypes ∧
      (afterInserts d ctid nf).store.contentFields =
        d.store.contentFields ++ mkFieldRows ctid d.store.nextFieldId nf ∧
      (afterInserts d ctid nf).store.nextTypeId = d.store.nextTypeId ∧
      (afterInserts d ctid nf).store.nextFieldId = d.store.nextFieldId + nf.length ∧
      (afterInserts d ctid nf).snapshot = d.snapshot := by
  induction nf with
  | nil => intro d; simp [afterInserts, mkFieldRows]
  | cons f rest ih =>
    intro d
    have h := ih (dbInsertField d ctid f).1
    simp only [afterInserts]
    refine ⟨h.1, ?_, h.2.2.1, ?_, h.2.2.2.2⟩
    · rw [h.2.1]
      simp [dbInsertField, mkFieldRows, mkFieldRow]
    · rw [h.2.2.2.1]
      simp [dbInsertField]
      omega

theorem insertFieldsLoop_noFault (ctid : Nat) (nf : List NormalizedField) :
    ∀ (d : DbState) (n : Nat) (acc : List FieldRow),
      insertFieldsLoop noFault ctid nf (d, n) acc =
        Except.ok ((afterInserts d ctid nf, n + nf.length),
          acc ++ mkFieldRows ctid d.store.nextFieldId nf) := by
  induction nf with
  | nil => intro d n acc; simp [insertFieldsLoop, afterInserts, mkFieldRows]
  | cons f rest ih =>
    intro d n acc
    rw [insertFieldsLoop, q_noFault]
    dsimp only
    rw [ih (dbInsertField d ctid f).1 (n + 1) (acc ++ [(dbInsertField d ctid f).2])]
    simp only [afterInserts, mkFieldRows]
    have h1 : n + 1 + rest.length = n + (rest.length + 1) := by omega
    have h2 : (dbInsertField d ctid f).1.store.nextFieldId = d.store.nextFieldId + 1 := rfl
    have h3 : (dbInsertField d ctid f).2 = mkFieldRow ctid d.store.nextFieldId f := rfl
    rw [h1, h2, h3]
    simp [List.append_assoc]

theorem store_eq_of (s1 s2 : Store) (h1 : s1.contentTypes = s2.contentTypes)
    (h2 : s1.contentFields = s2.contentFields) (h3 : s1.nextTypeId = s2.nextTypeId)
    (h4 : s1.nextFieldId = s2.nextFieldId) : s1 = s2 := by
  cases s1; cases s2; simp_all

theorem dbState_eq_of (d1 d2 : DbState) (h1 : d1.store = d2.store)
    (h2 : d1.snapshot = d2.snapshot) : d1 = d2 := by
  cases d1; cases d2; simp_all

/-- The fault-free transaction on an existing slug: BEGIN, lookup,
coalescing update, field delete, field inserts, COMMIT. -/
theorem runImportTx_noFault_found (now : Nat) (db0 : DbState) (p : ParsedImport)
    (r : ContentTypeRow)
    (hr : db0.store.contentTypes.find? (fun x => x.slug = p.slug) = some r) :
    runImportTx noFault now db0 p =
      Except.ok
        (dbCommit (afterInserts
          (dbDeleteFields
            (dbUpdateType (dbBegin db0) p.slug
              (updateParams p.contentType p.labelSingular p.labelPlural) now).1
            r.id)
          r.id p.normalizedFields),
         applyUpdate r (updateParams p.contentType p.labelSingular p.labelPlural) now,
         mkFieldRows r.id db0.store.nextFieldId p.normalizedFields,
         true) := by
  simp only [runImportTx, q_noFault]
  have hfind : findTypeIdBySlug (dbBegin db0).store p.slug = some r.id := by
    simp [findTypeIdBySlug, dbBegin, hr]
  rw [hfind]
  dsimp only
  have h2 : (dbUpdateType (dbBegin db0) p.slug
      (updateParams p.contentType p.labelSingular p.labelPlural) now).2 =
      some (applyUpdate r (updateParams p.contentType p.labelSingular p.labelPlural) now) := by
    have hfr : (dbBegin db0).store.contentTypes.find? (fun x => x.slug = p.slug) =
        some r := hr
    simp [dbUpdateType, hfr]
  rw [h2]
  dsimp only
  rw [insertFieldsLoop_noFault]
  dsimp only
  rfl

/-- C1: a validated, non-dry-run import whose slug already names a
stored content type updates that row by the coalescing update, deletes
every field row previously bound to its id, inserts one new field row
per normalized input field bound to that id, and answers with a
success result carrying replacedExisting true and fieldsImported equal
to the number of normalized fields. -/
theorem import_existing_slug_replaces (now : Nat) (db0 : DbState) (body : JVal)
    (p : ParsedImport) (r : ContentTypeRow)
    (hp : parseImport body = Except.ok p)
    (hdr : jsTruthy p.dryRun = false)
    (hr : db0.store.contentTypes.find? (fun x => x.slug = p.slug) = some r) :
    importHandler noFault now db0 body =
      ({ store :=
           { contentTypes := db0.store.contentTypes.map (fun x =>
               if x.slug = p.slug then
                 applyUpdate x (updateParams p.contentType p.labelSingular
                   p.labelPlural) now
               else x)
             contentFields :=
               db0.store.contentFields.filter (fun fr => fr.content_type_id ≠ r.id) ++
                 mkFieldRows r.id db0.store.nextFieldId p.normalizedFields
             nextTypeId := db0.store.nextTypeId
             nextFieldId := db0.store.nextFieldId + p.normalizedFields.length }
         snapshot := none },
       Resp.ok (applyUpdate r (updateParams p.contentType p.labelSingular
           p.labelPlural) now)
         p.normalizedFields.length true) ∧
    (mkFieldRows r.id db0.store.nextFieldId p.normalizedFields).length =
      p.normalizedFields.length ∧
    (∀ fr ∈ mkFieldRows r.id db0.store.nextFieldId p.normalizedFields,
      fr.content_type_id = r.id) := by
  refine ⟨?_, mkFieldRows_length r.id p.normalizedFields db0.store.nextFieldId,
    mkFieldRows_ctid r.id p.normalizedFields db0.store.nextFieldId⟩
  have spec := afterInserts_spec r.id p.normalizedFields
    (dbDeleteFields
      (dbUpdateType (dbBegin db0) p.slug
        (updateParams p.contentType p.labelSingular p.labelPlural) now).1
      r.id)
  simp only [importHandler, hp, hdr, Bool.false_eq_true, if_false,
    runImportTx_noFault_found now db0 p r hr]
  congr 1
  · apply dbState_eq_of
    · apply store_eq_of
      · exact spec.1
      · exact spec.2.1
      · exact spec.2.2.1
      · exact spec.2.2.2.1
    · rfl
  · rw [mkFieldRows_length]

/-- Witness for C1 at a concrete store holding the slug. -/
theorem import_existing_slug_replaces_witness :
    importHandler noFault 7 dbWithCase sampleBody =
      ({ store :=
           { contentTypes := dbWithCase.store.contentTypes.map (fun x =>
               if x.slug = sampleParsed.slug then
                 applyUpdate x (updateParams sampleParsed.contentType
                   sampleParsed.labelSingular sampleParsed.labelPlural) 7
               else x)
             contentFields :=
               dbWithCase.store.contentFields.filter
                   (fun fr => fr.content_type_id ≠ sampleRow.id) ++
                 mkFieldRows sampleRow.id dbWithCase.store.nextFieldId
                   sampleParsed.normalizedFields
             nextTypeId := dbWithCase.store.nextTypeId
             nextFieldId := dbWithCase.store.nextFieldId +
               sampleParsed.normalizedFields.length }
         snapshot := none },
       Resp.ok (applyUpdate sampleRow (updateParams sampleParsed.contentType
           sampleParsed.labelSingular sampleParsed.labelPlural) 7)
         sampleParsed.normalizedFields.length true) :=
  (import_existing_slug_replaces 7 dbWithCase sampleBody sampleParsed sampleRow
    rfl rfl rfl).1

/-- The fault-free transaction on a fresh slug: BEGIN, lookup, insert
of one content-type row, field inserts, COMMIT. -/
theorem runImportTx_noFault_new (now : Nat) (db0 : DbState) (p : ParsedImport)
    (hr : db0.store.contentTypes.find? (fun x => x.slug = p.slug) = none) :
    runImportTx noFault now db0 p =
      Except.ok
        (dbCommit (afterInserts
          (dbInsertType (dbBegin db0) p.slug
            (insertParams p.contentType p.labelSingular p.labelPlural) now).1
          db0.store.nextTypeId p.normalizedFields),
         (dbInsertType (dbBegin db0) p.slug
           (insertParams p.contentType p.labelSingular p.labelPlural) now).2,
         mkFieldRows db0.store.nextTypeId db0.store.nextFieldId p.normalizedFields,
         false) := by
  simp only [runImportTx, q_noFault]
  have hfind : findTypeIdBySlug (dbBegin db0).store p.slug = none := by
    simp [findTypeIdBySlug, dbBegin, hr]
  rw [hfind]
  dsimp only
  rw [insertFieldsLoop_noFault]
  dsimp only
  rfl

/-- C2: a validated, non-dry-run import whose slug names no stored
content type appends exactly one new content-type row (with the
resolved attributes and defaults) and one field row per normalized
field, allocated in the order of the normalized list, and answers with
replacedExisting false and fieldsImported equal to the number of
normalized fields. -/
theorem import_new_slug_creates (now : Nat) (db0 : DbState) (body : JVal)
    (p : ParsedImport)
    (hp : parseImport body = Except.ok p)
    (hdr : jsTruthy p.dryRun = false)
    (hr : db0.store.contentTypes.find? (fun x => x.slug = p.slug) = none) :
    importHandler noFault now db0 body =
      ({ store :=
           { contentTypes := db0.store.contentTypes ++
               [{ id := db0.store.nextTypeId
                  slug := p.slug
                  type := jsOr (getProp p.contentType "type") (JVal.str "content")
                  label_singular := JVal.str p.labelSingular
                  label_plural := JVal.str p.labelPlural
                  description := jsOr (getProp p.contentType "description") (JVal.str "")
                  icon := jsCoalesce (getProp p.contentType "icon") JVal.null
                  is_system := JVal.bool (jsTruthy (getProp p.contentType "is_system"))
                  name := JVal.str p.labelPlural
                  updated_at := now }]
             contentFields := db0.store.contentFields ++
               mkFieldRows db0.store.nextTypeId db0.store.nextFieldId p.normalizedFields
             nextTypeId := db0.store.nextTypeId + 1
             nextFieldId := db0.store.nextFieldId + p.normalizedFields.length }
         snapshot := none },
       Resp.ok
         { id := db0.store.nextTypeId
           slug := p.slug
           type := jsOr (getProp p.contentType "type") (JVal.str "content")
           label_singular := JVal.str p.labelSingular
           label_plural := JVal.str p.labelPlural
           description := jsOr (getProp p.contentType "description") (JVal.str "")
           icon := jsCoalesce (getProp p.contentType "icon") JVal.null
           is_system := JVal.bool (jsTruthy (getProp p.contentType "is_system"))
           name := JVal.str p.labelPlural
           updated_at := now }
         p.normalizedFields.length false) ∧
    (mkFieldRows db0.store.nextTypeId db0.store.nextFieldId p.normalizedFields).length =
      p.normalizedFields.length ∧
    (∀ fr ∈ mkFieldRows db0.store.nextTypeId db0.store.nextFieldId p.normalizedFields,
      fr.content_type_id = db0.store.nextTypeId) ∧
    (∀ i, (mkFieldRows db0.store.nextTypeId db0.store.nextFieldId
        p.normalizedFields)[i]? =
      (p.normalizedFields[i]?).map
        (fun f => mkFieldRow db0.store.nextTypeId (db0.store.nextFieldId + i) f)) := by
  refine ⟨?_,
    mkFieldRows_length db0.store.nextTypeId p.normalizedFields db0.store.nextFieldId,
    mkFieldRows_ctid db0.store.nextTypeId p.normalizedFields db0.store.nextFieldId,
    fun i => mkFieldRows_getElem db0.store.nextTypeId p.normalizedFields
      db0.store.nextFieldId i⟩
  have spec := afterInserts_spec db0.store.nextTypeId p.normalizedFields
    (dbInsertType (dbBegin db0) p.slug
      (insertParams p.contentType p.labelSingular p.labelPlural) now).1
  simp only [importHandler, hp, hdr, Bool.false_eq_true, if_false,
    runImportTx_noFault_new now db0 p hr]
  congr 1
  · apply dbState_eq_of
    · apply store_eq_of
      · exact spec.1
      · exact spec.2.1
      · exact spec.2.2.1
      · exact spec.2.2.2.1
    · rfl
  · rw [mkFieldRows_length]
    rfl

/-- Witness for C2 at an empty store. -/
theorem import_new_slug_creates_witness :
    importHandler noFault 7 emptyDb sampleBody =
      ({ store :=
           { contentTypes := emptyDb.store.contentTypes ++
               [{ id := emptyDb.store.nextTypeId
                  slug := sampleParsed.slug
                  type := jsOr (getProp sampleParsed.contentType "type")
                    (JVal.str "content")
                  label_singular := JVal.str sampleParsed.labelSingular
                  label_plural := JVal.str sampleParsed.labelPlural
                  description := jsOr (getProp sampleParsed.contentType "description")
                    (JVal.str "")
                  icon := jsCoalesce (getProp sampleParsed.contentType "icon") JVal.null
                  is_system := JVal.bool (jsTruthy
                    (getProp sampleParsed.contentType "is_system"))
                  name := JVal.str sampleParsed.labelPlural
                  updated_at := 7 }]
             contentFields := emptyDb.store.contentFields ++
               mkFieldRows emptyDb.store.nextTypeId emptyDb.store.nextFieldId
                 sampleParsed.normalizedFields
             nextTypeId := emptyDb.store.nextTypeId + 1
             nextFieldId := emptyDb.store.nextFieldId +
               sampleParsed.normalizedFields.length }
         snapshot := none },
       Resp.ok
         { id := emptyDb.store.nextTypeId
           slug := sampleParsed.slug
           type := jsOr (getProp sampleParsed.contentType "type") (JVal.str "content")
           label_singular := JVal.str sampleParsed.labelSingular
           label_plural := JVal.str sampleParsed.labelPlural
           description := jsOr (getProp sampleParsed.contentType "description")
             (JVal.str "")
           icon := jsCoalesce (getProp sampleParsed.contentType "icon") JVal.null
           is_system := JVal.bool (jsTruthy
             (getProp sampleParsed.contentType "is_system"))
           name := JVal.str sampleParsed.labelPlural
           updated_at := 7 }
         sampleParsed.normalizedFields.length false) :=
  (import_new_slug_creates 7 emptyDb sampleBody sampleParsed rfl rfl rfl).1

theorem insertFieldsLoop_error_snapshot (fault : Nat → Option String) (ctid : Nat)
    (nf : List NormalizedField) :
    ∀ (s : DbState × Nat) (acc : List FieldRow) (db' : DbState) (msg : String),
      insertFieldsLoop fault ctid nf s acc = Except.error (db', msg) →
      db'.snapshot = s.1.snapshot := by
  induction nf with
  | nil => intro s acc db' msg h; simp [insertFieldsLoop] at h
  | cons f rest ih =>
    intro s acc db' msg h
    rw [insertFieldsLoop] at h
    simp only [q] at h
    cases hf : fault s.2 with
    | some m =>
      rw [hf] at h
      dsimp only at h
      injection h with h'
      cases h'
      rfl
    | none =>
      rw [hf] at h
      dsimp only at h
      exact (ih _ _ _ _ h).trans rfl

theorem insertFieldsLoop_ok_snapshot (fault : Nat → Option String) (ctid : Nat)
    (nf : List NormalizedField) :
    ∀ (s : DbState × Nat) (acc : List FieldRow) (s' : DbState × Nat)
      (rows : List FieldRow),
      insertFieldsLoop fault ctid nf s acc = Except.ok (s', rows) →
      s'.1.snapshot = s.1.snapshot := by
  induction nf with
  | nil =>
    intro s acc s' rows h
    simp only [insertFieldsLoop] at h
    injection h with h'
    cases h'
    rfl
  | cons f rest ih =>
    intro s acc s' rows h
    rw [insertFieldsLoop] at h
    simp only [q] at h
    cases hf : fault s.2 with
    | some m => rw [hf] at h; dsimp only at h; exact absurd h (by simp)
    | none =>
      rw [hf] at h
      dsimp only at h
      exact (ih _ _ _ _ h).trans rfl

/-- Whatever state a failed transaction reached, ROLLBACK restores the
store present at the call (the snapshot taken at BEGIN, or the
untouched state when BEGIN itself failed). -/
theorem runImportTx_error_rollback (fault : Nat → Option String) (now : Nat)
    (db0 : DbState) (p : ParsedImport) (db' : DbState) (msg : String)
    (hsnap : db0.snapshot = none)
    (h : runImportTx fault now db0 p = Except.error (db', msg)) :
    dbRollback db' = { store := db0.store, snapshot := none } := by
  have hroll0 : dbRollback db0 = { store := db0.store, snapshot := none } := by
    simp [dbRollback, hsnap]
  have hrollB : ∀ d : DbState, d.snapshot = some db0.store →
      dbRollback d = { store := db0.store, snapshot := none } := by
    intro d hd
    simp [dbRollback, hd]
  rw [runImportTx] at h
  simp only [q] at h
  try dsimp only at h
  cases hf0 : fault 0 with
  | some m => rw [hf0] at h; try dsimp only at h; injection h with h'; cases h'; exact hroll0
  | none =>
  rw [hf0] at h
  try dsimp only at h
  cases hf1 : fault (0 + 1) with
  | some m =>
    rw [hf1] at h; try dsimp only at h; injection h with h'; cases h'
    exact hrollB _ rfl
  | none =>
  rw [hf1] at h
  try dsimp only at h
  cases hex : findTypeIdBySlug (dbBegin db0).store p.slug with
  | some i =>
    rw [hex] at h
    try dsimp only at h
    cases hf2 : fault (0 + 1 + 1) with
    | some m =>
      rw [hf2] at h; try dsimp only at h; injection h with h'; cases h'
      exact hrollB _ rfl
    | none =>
    rw [hf2] at h
    try dsimp only at h
    cases hro : (dbUpdateType (dbBegin db0) p.slug
        (updateParams p.contentType p.labelSingular p.labelPlural) now).2 with
    | none =>
      rw [hro] at h
      try dsimp only at h
      injection h with h'; cases h'
      exact hrollB _ rfl
    | some row =>
      rw [hro] at h
      try dsimp only at h
      cases hf3 : fault (0 + 1 + 1 + 1) with
      | some m =>
        rw [hf3] at h; try dsimp only at h; injection h with h'; cases h'
        exact hrollB _ rfl
      | none =>
      rw [hf3] at h
      try dsimp only at h
      cases hloop : insertFieldsLoop fault row.id p.normalizedFields
          ((dbDeleteFields (dbUpdateType (dbBegin db0) p.slug
            (updateParams p.contentType p.labelSingular p.labelPlural) now).1 row.id),
            0 + 1 + 1 + 1 + 1) [] with
      | error e =>
        rw [hloop] at h
        try dsimp only at h
        injection h with h'
        have hs := insertFieldsLoop_error_snapshot fault row.id p.normalizedFields
          _ _ e.1 e.2 (by rw [hloop])
        cases h'
        exact hrollB _ hs
      | ok res =>
        rw [hloop] at h
        try dsimp only at h
        have hs := insertFieldsLoop_ok_snapshot fault row.id p.normalizedFields
          _ _ res.1 res.2 (by rw [hloop])
        cases hfc : fault res.1.2 with
        | some m =>
          rw [hfc] at h; try dsimp only at h; injection h with h'; cases h'
          exact hrollB _ hs
        | none =>
          rw [hfc] at h; try dsimp only at h; exact absurd h (by simp)
  | none =>
    rw [hex] at h
    try dsimp only at h
    cases hf2 : fault (0 + 1 + 1) with
    | some m =>
      rw [hf2] at h; try dsimp only at h; injection h with h'; cases h'
      exact hrollB _ rfl
    | none =>
    rw [hf2] at h
    try dsimp only at h
    cases hloop : insertFieldsLoop fault
        (dbInsertType (dbBegin db0) p.slug
          (insertParams p.contentType p.labelSingular p.labelPlural) now).2.id
        p.normalizedFields
        ((dbInsertType (dbBegin db0) p.slug
          (insertParams p.contentType p.labelSingular p.labelPlural) now).1,
          0 + 1 + 1 + 1) [] with
    | error e =>
      rw [hloop] at h
      try dsimp only at h
      injection h with h'
      have hs := insertFieldsLoop_error_snapshot fault _ p.normalizedFields
        _ _ e.1 e.2 (by rw [hloop])
      cases h'
      exact hrollB _ hs
    | ok res =>
      rw [hloop] at h
      try dsimp only at h
      have hs := insertFieldsLoop_ok_snapshot fault _ p.normalizedFields
        _ _ res.1 res.2 (by rw [hloop])
      cases hfc : fault res.1.2 with
      | some m =>
        rw [hfc] at h; try dsimp only at h; injection h with h'; cases h'
        exact hrollB _ hs
      | none =>
        rw [hfc] at h; try dsimp only at h; exact absurd h (by simp)

/-- C3: whenever any step of the transactional write path (BEGIN,
existence lookup, update or insert, field delete, any field insert,
COMMIT) raises, the handler rolls the transaction back — the store
visible after the call is exactly the store before it — and answers
HTTP 500 with error "Import failed" and the message of the underlying
cause. -/
theorem import_failure_rolls_back (fault : Nat → Option String) (now : Nat)
    (db0 : DbState) (body : JVal) (p : ParsedImport) (db' : DbState) (msg : String)
    (hsnap : db0.snapshot = none)
    (hp : parseImport body = Except.ok p)
    (hdr : jsTruthy p.dryRun = false)
    (htx : runImportTx fault now db0 p = Except.error (db', msg)) :
    importHandler fault now db0 body =
      ({ store := db0.store, snapshot := none },
       Resp.failure 500 "Import failed" msg) := by
  simp only [importHandler, hp, hdr, Bool.false_eq_true, if_false, htx]
  rw [runImportTx_error_rollback fault now db0 p db' msg hsnap htx]

/-- A fault profile raising at the field-delete query of the update
path (the fourth query of the request). -/
def faultAtDelete : Nat → Option String :=
  fun n => if n = 3 then some "deadlock detected" else none

/-- Witness for C3: a failure after the content-type row was already
updated leaves the visible store exactly as before the call. -/
theorem import_failure_rolls_back_witness :
    importHandler faultAtDelete 7 dbWithCase sampleBody =
      ({ store := dbWithCase.store, snapshot := none },
       Resp.failure 500 "Import failed" "deadlock detected") :=
  import_failure_rolls_back faultAtDelete 7 dbWithCase sampleBody sampleParsed
    (dbUpdateType (dbBegin dbWithCase) sampleParsed.slug
      (updateParams sampleParsed.contentType sampleParsed.labelSingular
        sampleParsed.labelPlural) 7).1
    "deadlock detected" rfl rfl rfl rfl
